import Mathlib

/-!
Verification of the mockup-generation pipeline.

The development embeds the pipeline's core functions as executable Lean
definitions and proves (or refutes) the specified properties about them:

* the layer-tree data model (`Layer`) parsed from a layered template;
* the in-process layer locator `findDesignLayer` (exact-name pre-order
  search over the parsed tree, from `generateMockupWithPsdJs`);
* the remote-script layer locator `findLayerByName` (three sequential
  matching passes: exact, case-insensitive, substring, each pass also
  recursing into layer groups with the full three-pass search);
* the basic fallback compositor `generateBasicMockup` (canvas sizing and
  centering arithmetic);
* the template-type classifier `getTemplateType` and the dispatch logic of
  `generateMockup`;
* the HTTP orchestration loop of the `render-mockup` endpoint (candidate
  layer names tried in order, per-attempt error catching, final basic
  fallback);
* the design-image download retry loop `downloadDesignImage`;
* the browser-session lifecycle of `generateMockupWithPhotopea`
  (unconditional release in a `finally` block).
-/

/-- Bounding box of a layer: left/top offsets and pixel dimensions,
as exposed by the parsed document tree. -/
structure Rect where
  left : Int
  top : Int
  width : Nat
  height : Nat
  deriving DecidableEq

/-- Node of the layer tree of a layered template: a name, a bounding box and
an ordered list of child layers (empty for non-group layers). -/
inductive Layer : Type where
  | mk : String → Rect → List Layer → Layer

/-- Name of a layer node. -/
def Layer.name : Layer → String
  | .mk n _ _ => n

/-- Bounding box of a layer node. -/
def Layer.rect : Layer → Rect
  | .mk _ r _ => r

/-- Child layers of a layer node (empty when the node is not a group). -/
def Layer.children : Layer → List Layer
  | .mk _ _ cs => cs

@[simp] theorem Layer.name_mk (n : String) (r : Rect) (cs : List Layer) :
    (Layer.mk n r cs).name = n := rfl

@[simp] theorem Layer.rect_mk (n : String) (r : Rect) (cs : List Layer) :
    (Layer.mk n r cs).rect = r := rfl

@[simp] theorem Layer.children_mk (n : String) (r : Rect) (cs : List Layer) :
    (Layer.mk n r cs).children = cs := rfl

/-- Lower-cases one character in the ASCII range, leaving every other
character unchanged; models the JavaScript `toLowerCase` on the ASCII layer
names the pipeline deals with. -/
def lowerChar (c : Char) : Char :=
  if 65 ≤ c.toNat ∧ c.toNat ≤ 90 then Char.ofNat (c.toNat + 32) else c

/-- Lower-cases a string character by character; models the JavaScript
`String.prototype.toLowerCase`. -/
def strToLower (s : String) : String :=
  ⟨s.data.map lowerChar⟩

/-- Decides whether `pre` is a prefix of `l`, character by character. -/
def prefixB : List Char → List Char → Bool
  | [], _ => true
  | _ :: _, [] => false
  | a :: as, b :: bs => if a = b then prefixB as bs else false

/-- Decides whether `needle` occurs contiguously inside `hay`; mirrors the
JavaScript `String.prototype.includes`. -/
def containsB (hay needle : List Char) : Bool :=
  match hay with
  | [] => prefixB needle []
  | _ :: t => if prefixB needle hay then true else containsB t needle

/-- String-level wrapper of `containsB`: `a.includes(b)` of JavaScript. -/
def strIncludes (a b : String) : Bool :=
  containsB a.data b.data

mutual

/-- In-process layer locator used by `generateMockupWithPsdJs`
(`image-processor.js`, `findDesignLayer`): returns the node itself when its
name equals the candidate exactly (case-sensitive), otherwise searches the
children depth-first in order; no other matching tier exists. -/
def findDesignLayer : Layer → String → Option Layer
  | .mk n r cs, name =>
    if n = name then some (.mk n r cs)
    else findDesignLayerForest cs name

/-- Forest version of `findDesignLayer`: the `for (const child of
node.children)` loop returning the first hit. -/
def findDesignLayerForest : List Layer → String → Option Layer
  | [], _ => none
  | l :: rest, name =>
    match findDesignLayer l name with
    | some f => some f
    | none => findDesignLayerForest rest name

end

mutual

/-- First pass of the remote-script locator (`findLayerByName`, exact
case-sensitive loop): checks each layer's name for exact equality and, for
group layers with a non-empty child list, recurses with the full
three-pass `findLayerByName` before moving to the next sibling. -/
def fLoop1 : List Layer → String → Option Layer
  | [], _ => none
  | .mk n r cs :: rest, name =>
    if n = name then some (.mk n r cs)
    else
      match (if cs.isEmpty then none else findLayerByName cs name) with
      | some x => some x
      | none => fLoop1 rest name
  termination_by ls _ => (sizeOf ls, 0)

/-- Second pass of the remote-script locator: case-insensitive equality of
the lower-cased names, again recursing into groups with the full
three-pass search. -/
def fLoop2 : List Layer → String → Option Layer
  | [], _ => none
  | .mk n r cs :: rest, name =>
    if strToLower n = strToLower name then some (.mk n r cs)
    else
      match (if cs.isEmpty then none else findLayerByName cs name) with
      | some x => some x
      | none => fLoop2 rest name
  termination_by ls _ => (sizeOf ls, 0)

/-- Third pass of the remote-script locator: the lower-cased layer name must
contain the lower-cased candidate as a substring; groups are again searched
with the full three-pass search. -/
def fLoop3 : List Layer → String → Option Layer
  | [], _ => none
  | .mk n r cs :: rest, name =>
    if strIncludes (strToLower n) (strToLower name) then some (.mk n r cs)
    else
      match (if cs.isEmpty then none else findLayerByName cs name) with
      | some x => some x
      | none => fLoop3 rest name
  termination_by ls _ => (sizeOf ls, 0)

/-- Remote-script layer locator injected into the editor page
(`image-processor.js`, `findLayerByName` inside the Photopea script): runs
the exact pass over the whole list, then the case-insensitive pass, then
the substring pass, returning the first hit. -/
def findLayerByName (layers : List Layer) (name : String) : Option Layer :=
  match fLoop1 layers name with
  | some x => some x
  | none =>
    match fLoop2 layers name with
    | some x => some x
    | none => fLoop3 layers name
  termination_by (sizeOf layers, 1)

end

/-- Pre-order listing of every node of a forest, groups included. -/
def allNodes : List Layer → List Layer
  | [] => []
  | .mk n r cs :: rest => .mk n r cs :: (allNodes cs ++ allNodes rest)

/-- Dimensions of a decoded raster image as reported by the raster
library's metadata call. -/
structure ImageDims where
  width : Nat
  height : Nat
  deriving DecidableEq

/-- Geometry of the output of the basic fallback compositor: the created
canvas dimensions and the offsets at which the unmodified design is
composited. -/
structure BasicMockupOut where
  canvasWidth : Nat
  canvasHeight : Nat
  left : Nat
  top : Nat
  deriving DecidableEq

/-- Basic fallback compositor (`image-processor.js`, `generateBasicMockup`):
the canvas is `1.5 *` the clamped dimension `max(dim, 800)` per axis and the
design is centered at `floor((canvas - dim) / 2)`.  The raster library's
`create` accepts only integral dimensions, and `1.5 * max(dim, 800)` is an
integer exactly when `max(dim, 800)` is even, so the call throws (result
`none`) whenever either clamped dimension is odd; when both are even the
exact value `3 * max(dim, 800) / 2` is produced.  The canvas is never
smaller than the design, so the centering offsets are the natural-number
floors. -/
def generateBasicMockup (d : ImageDims) : Option BasicMockupOut :=
  let mw := max d.width 800
  let mh := max d.height 800
  if mw % 2 = 0 ∧ mh % 2 = 0 then
    some { canvasWidth := 3 * mw / 2, canvasHeight := 3 * mh / 2,
           left := (3 * mw / 2 - d.width) / 2, top := (3 * mh / 2 - d.height) / 2 }
  else none

/-- Last path segment of `p`: everything after the final slash. -/
def basenameChars (p : List Char) : List Char :=
  p.foldl (fun acc c => if c = '/' then [] else acc ++ [c]) []

/-- Suffix of `cs` starting at its last dot, including the dot; `none` when
no dot occurs. -/
def lastDotSplit : List Char → Option (List Char)
  | [] => none
  | c :: cs =>
    match lastDotSplit cs with
    | some s => some s
    | none => if c = '.' then some (c :: cs) else none

/-- Extension of a path as computed by Node's `path.extname`: the basename's
suffix from its last dot, where a dot in leading position (a hidden file
such as `.bashrc`) does not start an extension. -/
def extnameStr (p : String) : String :=
  match basenameChars p.data with
  | [] => ""
  | _ :: brest =>
    match lastDotSplit brest with
    | some s => ⟨s⟩
    | none => ""

/-- Template-type classifier (`image-processor.js`, `getTemplateType`): an
empty (falsy) path is `unknown`; extension `.psd` (lower-cased) is `psd`;
`.png`, `.jpg` and `.jpeg` are all reported as `png`; anything else is
`unknown`. -/
def getTemplateType (p : String) : String :=
  if p = "" then "unknown"
  else
    let ext := strToLower (extnameStr p)
    if ext = ".psd" then "psd"
    else if ext = ".png" ∨ ext = ".jpg" ∨ ext = ".jpeg" then "png"
    else "unknown"

/-- Compositing strategies attempted against a layered (PSD) template. -/
inductive Strategy where
  | photopea
  | psdjs
  deriving DecidableEq

/-- Processing mode requested by the client (the `mode` field of the
request body; `auto` is the default). -/
inductive Mode where
  | auto
  | photopea
  | psdjs
  deriving DecidableEq

/-- Which generator produced the final mockup file. -/
inductive Producer where
  | photopea
  | psdjs
  | png
  | basic
  deriving DecidableEq

/-- Outcome of one `generateMockup` call: the layered-compositor attempts it
performed (strategy with the layer-name candidate it targeted) and the
producer of the returned mockup; `producer = none` means the call threw. -/
structure GenRun where
  attempts : List (Strategy × String)
  producer : Option Producer
  deriving DecidableEq

/-- Dispatch logic of `generateMockup` (`image-processor.js`): when the
template path is non-empty (truthy) and the file exists, the template type
decides the branch.  A `psd` template in mode `photopea` or `auto` first
tries the Photopea compositor; on failure mode `auto` falls back to the
PSD.js compositor and then to the basic mockup inside this same call, while
mode `photopea` rethrows.  Mode `psdjs` tries only the PSD.js compositor.
A `png` template uses the flat PNG compositor, an `unknown` template type
and a missing template both use the basic mockup.  The oracles `strategyOk`,
`pngOk` and `basicOk` state which of those fallible operations succeed. -/
def generateMockup (templateExists : Bool) (templatePath : String) (mode : Mode)
    (candidate : String) (strategyOk : Strategy → String → Bool)
    (pngOk : Bool) (basicOk : Bool) : GenRun :=
  if templatePath ≠ "" ∧ templateExists then
    let t := getTemplateType templatePath
    if t = "psd" then
      match mode with
      | .photopea =>
        if strategyOk .photopea candidate then ⟨[(.photopea, candidate)], some .photopea⟩
        else ⟨[(.photopea, candidate)], none⟩
      | .auto =>
        if strategyOk .photopea candidate then ⟨[(.photopea, candidate)], some .photopea⟩
        else if strategyOk .psdjs candidate then
          ⟨[(.photopea, candidate), (.psdjs, candidate)], some .psdjs⟩
        else if basicOk then
          ⟨[(.photopea, candidate), (.psdjs, candidate)], some .basic⟩
        else ⟨[(.photopea, candidate), (.psdjs, candidate)], none⟩
      | .psdjs =>
        if strategyOk .psdjs candidate then ⟨[(.psdjs, candidate)], some .psdjs⟩
        else ⟨[(.psdjs, candidate)], none⟩
    else if t = "png" then
      if pngOk then ⟨[], some .png⟩ else ⟨[], none⟩
    else if basicOk then ⟨[], some .basic⟩ else ⟨[], none⟩
  else if basicOk then ⟨[], some .basic⟩ else ⟨[], none⟩

/-- Candidate loop of the `render-mockup` endpoint (`server.js`): each layer
name in the configured list is tried with one `generateMockup` call; the
loop breaks on the first success and otherwise accumulates the attempts of
every candidate. -/
def runCandidates (gen : String → GenRun) : List String → List (Strategy × String) × Option Producer
  | [] => ([], none)
  | c :: cs =>
    let g := gen c
    match g.producer with
    | some r => (g.attempts, some r)
    | none =>
      let rest := runCandidates gen cs
      (g.attempts ++ rest.1, rest.2)

/-- Response-relevant state of one `render-mockup` request: whether the
response reports `success`, the layered-compositor attempts performed, what
produced the returned mockup (if any) and the `fallbackUsed` flag of the
processing details. -/
structure RenderResponse where
  success : Bool
  attempts : List (Strategy × String)
  producer : Option Producer
  fallbackUsed : Bool
  deriving DecidableEq

/-- Orchestration of the `render-mockup` endpoint (`server.js`): a design
download failure answers `success:false` immediately; otherwise the
candidate loop runs, a per-candidate error only advances the loop, and when
every candidate failed the endpoint calls `generateBasicMockup` directly,
setting `fallbackUsed` on success and answering `success:false` when even
that fails.  With an empty candidate list the loop never runs and no error
is recorded, so the endpoint crashes on the undefined mockup path and the
outer catch answers `success:false`.  `fallbackUsed` is set only on the
catch path: a basic mockup produced inside `generateMockup` (mode `auto`
internal fallback, unknown template type, or missing template) leaves it
`false`. -/
def renderEndpoint (fetchOk : Bool) (templateExists : Bool) (templatePath : String)
    (mode : Mode) (candidates : List String) (strategyOk : Strategy → String → Bool)
    (pngOk : Bool) (basicOk : Bool) : RenderResponse :=
  if fetchOk = false then ⟨false, [], none, false⟩
  else
    match candidates,
      runCandidates
        (fun c => generateMockup templateExists templatePath mode c strategyOk pngOk basicOk)
        candidates with
    | [], _ => ⟨false, [], none, false⟩
    | _ :: _, (atts, some p) => ⟨true, atts, some p, false⟩
    | _ :: _, (atts, none) =>
      if basicOk then ⟨true, atts, some .basic, true⟩
      else ⟨false, atts, none, false⟩

/-- Observable behavior of one design-image download: how many attempts
were made, the waits inserted between attempts (in milliseconds) and
whether a file was produced. -/
structure DownloadTrace where
  attemptsMade : Nat
  delaysMs : List Nat
  success : Bool
  deriving DecidableEq

/-- Retry loop of `downloadDesignImage` (`downloader.js` revision with
retries): `ok k` states whether the `k`-th attempt (1-based) succeeds;
`fuel` is the number of attempts still allowed.  A failed attempt is
followed by a 1000 ms wait exactly when another attempt remains. -/
def downloadGo (ok : Nat → Bool) (attempt fuel : Nat) : DownloadTrace :=
  match fuel with
  | 0 => ⟨0, [], false⟩
  | f + 1 =>
    if ok attempt then ⟨1, [], true⟩
    else
      let rest := downloadGo ok (attempt + 1) f
      ⟨rest.attemptsMade + 1, (if f = 0 then [] else [1000]) ++ rest.delaysMs, rest.success⟩

/-- Design-image fetcher (`downloadDesignImage`): up to `maxRetries = 3`
attempts starting at attempt 1, with a fixed 1000 ms delay between
consecutive attempts; exhausting the retries rethrows the last error. -/
def downloadDesignImage (ok : Nat → Bool) : DownloadTrace :=
  downloadGo ok 1 3

/-- Fallible steps of one Photopea compositor run, in program order:
whether the browser launch succeeds, whether navigation to the editor
succeeds, whether the scripting API is detected on the first poll, whether
the recovery reload succeeds, whether the API is detected after the reload,
whether the injected script reports success, and whether it returned PNG
data. -/
structure PhotopeaWorld where
  launchOk : Bool
  navOk : Bool
  appReadyFirst : Bool
  reloadOk : Bool
  appReadyAfterReload : Bool
  scriptSuccess : Bool
  scriptHasPng : Bool

/-- Browser-session events observable from outside the compositor. -/
inductive BrowserEvent where
  | launch
  | close
  | exportPng
  deriving DecidableEq

/-- Body of `generateMockupWithPhotopea` after a successful launch
(`image-processor.js`): navigation failure throws; if the scripting API is
not detected the page is reloaded once and re-polled, failures of either
step throw; a script error or missing PNG payload throws; otherwise the
PNG is written and the run returns it.  The `waitForSelector` timeouts are
caught and tolerated in the source and so are not failure points here. -/
def photopeaBody (w : PhotopeaWorld) : Bool :=
  if w.navOk = false then false
  else if w.appReadyFirst then w.scriptSuccess && w.scriptHasPng
  else if w.reloadOk = false then false
  else if w.appReadyAfterReload then w.scriptSuccess && w.scriptHasPng
  else false

/-- Browser-session event trace of one `generateMockupWithPhotopea` call:
when the launch fails the `browser` variable stays null and nothing else
happens; after a successful launch the body runs (throwing or exporting)
and the `finally` block closes the browser unconditionally, as the last
action before the function returns or rethrows (errors of `close` itself
are caught and swallowed). -/
def photopeaTrace (w : PhotopeaWorld) : List BrowserEvent :=
  if w.launchOk = false then []
  else .launch :: ((if photopeaBody w then [.exportPng] else []) ++ [.close])

/-- Summary of one `generateMockupWithPhotopea` call: whether it returned
an output path, whether a browser session was launched, and whether that
session was closed before the call finished. -/
structure PhotopeaExec where
  succeeded : Bool
  browserLaunched : Bool
  browserClosed : Bool
  deriving DecidableEq

/-- Remote-editor compositor (`generateMockupWithPhotopea`), summarized from
its event trace. -/
def generateMockupWithPhotopea (w : PhotopeaWorld) : PhotopeaExec :=
  { succeeded := BrowserEvent.exportPng ∈ photopeaTrace w,
    browserLaunched := BrowserEvent.launch ∈ photopeaTrace w,
    browserClosed := BrowserEvent.close ∈ photopeaTrace w }

/-- Raster image: dimensions plus a tag identifying its pixel content
(enough to state which image was placed where; pixel data itself is owned
by the raster library). -/
structure Img where
  width : Nat
  height : Nat
  tag : String
  deriving DecidableEq

/-- Resize with `fit: fill` (`sharp.resize(width, height, fit fill)`): the
output has exactly the requested dimensions, stretching the content without
preserving its aspect ratio. -/
def resizeFill (img : Img) (w h : Nat) : Img :=
  ⟨w, h, img.tag⟩

/-- Output of the PSD.js compositor: the template tree rendered as the base
raster, the overlay image composited onto it, and the top-left offset of
the overlay. -/
structure PsdJsOut where
  base : Layer
  overlay : Img
  left : Int
  top : Int

/-- Local layered-document compositor (`generateMockupWithPsdJs`): locates
the insertion layer with `findDesignLayer`, throws `LayerNotFound` (result
`none`) when it is absent, otherwise resizes the design to exactly the
layer's bounding-box dimensions with `fit: fill` and composites it onto the
exported template raster at the box's `(left, top)`. -/
def generateMockupWithPsdJs (tree : Layer) (design : Img) (name : String) : Option PsdJsOut :=
  match findDesignLayer tree name with
  | none => none
  | some l =>
    some { base := tree,
           overlay := resizeFill design l.rect.width l.rect.height,
           left := l.rect.left,
           top := l.rect.top }

/-! Helper lemmas shared by the claim theorems. -/

theorem prefixB_refl : ∀ x : List Char, prefixB x x = true
  | [] => rfl
  | a :: as => by simp [prefixB, prefixB_refl as]

theorem containsB_self (x : List Char) : containsB x x = true := by
  cases x with
  | nil => rfl
  | cons c t => simp [containsB, prefixB_refl]

theorem strIncludes_self (a : String) : strIncludes a a = true := by
  simp [strIncludes, containsB_self]

theorem sizeOf_layerList_pos (ls : List Layer) : 0 < sizeOf ls := by
  cases ls <;> simp_arith

/-- Candidate loop behavior when every candidate fails with the same number
of attempts: no producer, and the attempts of all candidates accumulate. -/
theorem runCandidates_all_fail (gen : String → GenRun) (k : Nat)
    (h : ∀ c, (gen c).producer = none ∧ (gen c).attempts.length = k) :
    ∀ cs : List String,
      (runCandidates gen cs).2 = none
      ∧ (runCandidates gen cs).1.length = k * cs.length := by
  intro cs
  induction cs with
  | nil => simp [runCandidates]
  | cons c cs ih =>
    have hc := h c
    simp [runCandidates, hc.1, hc.2, ih.1, ih.2]
    ring

/-- Candidate loop behavior when the first candidate already succeeds. -/
theorem runCandidates_first_succeeds (gen : String → GenRun) (c : String)
    (cs : List String) (p : Producer) (h : (gen c).producer = some p) :
    runCandidates gen (c :: cs) = ((gen c).attempts, some p) := by
  simp [runCandidates, h]

/-- With a PSD template, mode pinned to Photopea and a failing strategy, one
`generateMockup` call performs exactly the one Photopea attempt and throws. -/
theorem generateMockup_photopea_fail (tp : String) (c : String)
    (htp : getTemplateType tp = "psd") (htp' : tp ≠ "") :
    generateMockup true tp .photopea c (fun _ _ => false) true true
      = ⟨[(.photopea, c)], none⟩ := by
  simp [generateMockup, htp, htp']

/-- With a PSD template, mode pinned to PSD.js and a failing strategy, one
`generateMockup` call performs exactly the one PSD.js attempt and throws. -/
theorem generateMockup_psdjs_fail (tp : String) (c : String)
    (htp : getTemplateType tp = "psd") (htp' : tp ≠ "") :
    generateMockup true tp .psdjs c (fun _ _ => false) true true
      = ⟨[(.psdjs, c)], none⟩ := by
  simp [generateMockup, htp, htp']

/-- With a PSD template, mode `auto` and both strategies failing, one
`generateMockup` call performs the two strategy attempts and then returns
the internally generated basic mockup instead of throwing. -/
theorem generateMockup_auto_fail (tp : String) (c : String)
    (htp : getTemplateType tp = "psd") (htp' : tp ≠ "") :
    generateMockup true tp .auto c (fun _ _ => false) true true
      = ⟨[(.photopea, c), (.psdjs, c)], some .basic⟩ := by
  simp [generateMockup, htp, htp']

/-- On a flat sibling list (no groups) the exact pass is the first match of
the exact-equality predicate. -/
theorem fLoop1_flat (name : String) :
    ∀ ls : List Layer, (∀ l ∈ ls, l.children = []) →
      fLoop1 ls name = ls.find? (fun l => l.name == name) := by
  intro ls
  induction ls with
  | nil => intro _; simp [fLoop1]
  | cons x rest ih =>
    intro hflat
    rcases x with ⟨n, r, cs⟩
    have hcs : cs = [] := by simpa using hflat _ (List.mem_cons_self _ _)
    subst hcs
    have hrest := ih fun l hl => hflat l (List.mem_cons_of_mem _ hl)
    by_cases hn : n = name
    · simp [fLoop1, List.find?, hn]
    · simp [fLoop1, List.find?, hn, hrest, beq_false_of_ne hn]

/-- On a flat sibling list the case-insensitive pass is the first match of
the lower-cased-equality predicate. -/
theorem fLoop2_flat (name : String) :
    ∀ ls : List Layer, (∀ l ∈ ls, l.children = []) →
      fLoop2 ls name = ls.find? (fun l => strToLower l.name == strToLower name) := by
  intro ls
  induction ls with
  | nil => intro _; simp [fLoop2]
  | cons x rest ih =>
    intro hflat
    rcases x with ⟨n, r, cs⟩
    have hcs : cs = [] := by simpa using hflat _ (List.mem_cons_self _ _)
    subst hcs
    have hrest := ih fun l hl => hflat l (List.mem_cons_of_mem _ hl)
    by_cases hn : strToLower n = strToLower name
    · simp [fLoop2, List.find?, hn]
    · simp [fLoop2, List.find?, hn, hrest, beq_false_of_ne hn]

/-- On a flat sibling list the substring pass is the first match of the
lower-cased containment predicate. -/
theorem fLoop3_flat (name : String) :
    ∀ ls : List Layer, (∀ l ∈ ls, l.children = []) →
      fLoop3 ls name = ls.find? (fun l => strIncludes (strToLower l.name) (strToLower name)) := by
  intro ls
  induction ls with
  | nil => intro _; simp [fLoop3]
  | cons x rest ih =>
    intro hflat
    rcases x with ⟨n, r, cs⟩
    have hcs : cs = [] := by simpa using hflat _ (List.mem_cons_self _ _)
    subst hcs
    have hrest := ih fun l hl => hflat l (List.mem_cons_of_mem _ hl)
    by_cases hn : strIncludes (strToLower n) (strToLower name) = true
    · simp [fLoop3, List.find?, hn]
    · simp [fLoop3, List.find?, hn, hrest]

/-! Claim theorems. -/

/-- C1 (counterexample): with a PSD template, mode `auto` (2 strategies), a
candidate list of length 2 and every strategy failing on every candidate,
the endpoint performs 2 composition attempts, not the claimed
`N * strategies = 4`: `generateMockup` falls back to the basic mockup
internally after the first candidate's two failures, so the loop stops
after one candidate and the response's `fallbackUsed` flag is `false`, not
the claimed `true`. -/
theorem C1_counterexample :
    (renderEndpoint true true "t.psd" .auto ["A", "B"] (fun _ _ => false) true true).attempts.length
        = 2
    ∧ ¬ ((renderEndpoint true true "t.psd" .auto ["A", "B"] (fun _ _ => false) true true).attempts.length
        = 2 * 2)
    ∧ (renderEndpoint true true "t.psd" .auto ["A", "B"] (fun _ _ => false) true true).producer
        = some .basic
    ∧ (renderEndpoint true true "t.psd" .auto ["A", "B"] (fun _ _ => false) true true).fallbackUsed
        = false := by
  decide

/-- C1 (amended): with a PSD template and every strategy failing on every
candidate, a pinned mode (`photopea` or `psdjs`, 1 strategy) performs
exactly N attempts over the N candidates and then the endpoint's catch
produces the basic fallback with `fallbackUsed = true`; mode `auto`
performs exactly 2 attempts (both strategies on the first candidate only),
after which `generateMockup`'s internal basic fallback ends the loop with
`fallbackUsed = false`. -/
theorem C1_exhaustion_and_fallback (tp : String) (cands : List String)
    (htp : getTemplateType tp = "psd") (hc : cands ≠ []) :
    (∀ m : Mode, m = .photopea ∨ m = .psdjs →
      (renderEndpoint true true tp m cands (fun _ _ => false) true true).attempts.length
          = cands.length
      ∧ (renderEndpoint true true tp m cands (fun _ _ => false) true true).fallbackUsed = true
      ∧ (renderEndpoint true true tp m cands (fun _ _ => false) true true).producer
          = some .basic)
    ∧ ((renderEndpoint true true tp .auto cands (fun _ _ => false) true true).attempts.length = 2
      ∧ (renderEndpoint true true tp .auto cands (fun _ _ => false) true true).fallbackUsed
          = false
      ∧ (renderEndpoint true true tp .auto cands (fun _ _ => false) true true).producer
          = some .basic) := by
  have htp' : tp ≠ "" := by rintro rfl; simp [getTemplateType] at htp
  obtain ⟨c, cs, rfl⟩ := List.exists_cons_of_ne_nil hc
  constructor
  · intro m hm
    have hgen : ∀ x, (generateMockup true tp m x (fun _ _ => false) true true).producer = none
        ∧ (generateMockup true tp m x (fun _ _ => false) true true).attempts.length = 1 := by
      rcases hm with rfl | rfl <;> intro x
      · simp [generateMockup_photopea_fail tp x htp htp']
      · simp [generateMockup_psdjs_fail tp x htp htp']
    have hrun := runCandidates_all_fail
      (fun x => generateMockup true tp m x (fun _ _ => false) true true) 1 hgen (c :: cs)
    rcases hrr : runCandidates
        (fun x => generateMockup true tp m x (fun _ _ => false) true true) (c :: cs)
      with ⟨atts, ropt⟩
    rw [hrr] at hrun
    obtain ⟨hnone, hlen⟩ := hrun
    simp only at hnone hlen
    subst hnone
    simp [renderEndpoint, hrr, hlen]
  · have hgenA := generateMockup_auto_fail tp c htp htp'
    have hrr := runCandidates_first_succeeds
      (fun x => generateMockup true tp .auto x (fun _ _ => false) true true) c cs .basic
      (by simp [hgenA])
    simp only [hgenA] at hrr
    simp [renderEndpoint, hrr]

/-- C1 (witness): pinned Photopea mode with two failing candidates makes 2
attempts and falls back with `fallbackUsed = true`. -/
theorem C1_witness :
    (renderEndpoint true true "t.psd" .photopea ["A", "B"] (fun _ _ => false) true true).attempts.length
        = 2
    ∧ (renderEndpoint true true "t.psd" .photopea ["A", "B"] (fun _ _ => false) true true).fallbackUsed
        = true := by
  have h := (C1_exhaustion_and_fallback "t.psd" ["A", "B"] (by decide) (by decide)).1
    .photopea (Or.inl rfl)
  exact ⟨by simpa using h.1, h.2.1⟩

/-- C4 (counterexample): for a 200-by-200 design the basic fallback canvas
is 1200-by-1200 — the code clamps each design dimension to at least 800
before multiplying by 1.5 — not the claimed 300-by-300; and on the
no-template path the basic mockup is produced inside `generateMockup`, so
the response's `fallbackUsed` flag stays `false` rather than the claimed
`true`. -/
theorem C4_counterexample :
    generateBasicMockup ⟨200, 200⟩ = some ⟨1200, 1200, 500, 500⟩
    ∧ ¬ (generateBasicMockup ⟨200, 200⟩ = some ⟨300, 300, 50, 50⟩)
    ∧ ¬ ((generateBasicMockup ⟨200, 200⟩).map (fun r => (r.canvasWidth, r.canvasHeight))
          = some (300, 300))
    ∧ (renderEndpoint true false "" .auto ["Design"] (fun _ _ => false) true true).producer
        = some .basic
    ∧ (renderEndpoint true false "" .auto ["Design"] (fun _ _ => false) true true).fallbackUsed
        = false := by
  decide

/-- C4 (amended): the basic fallback canvas is `1.5 * max(dim, 800)` per
axis with the design centered at the floored half-difference; for a
200-by-200 design with no template the output is 1200-by-1200, produced by
the basic generator, and the response's `fallbackUsed` flag is `false`
because the basic mockup is produced inside `generateMockup`, not by the
endpoint's catch-all fallback. -/
theorem C4_basic_canvas_geometry :
    (∀ w h : Nat, max w 800 % 2 = 0 → max h 800 % 2 = 0 →
      generateBasicMockup ⟨w, h⟩ =
        some ⟨3 * max w 800 / 2, 3 * max h 800 / 2,
              (3 * max w 800 / 2 - w) / 2, (3 * max h 800 / 2 - h) / 2⟩)
    ∧ generateBasicMockup ⟨200, 200⟩ = some ⟨1200, 1200, 500, 500⟩
    ∧ (renderEndpoint true false "" .auto ["Design"] (fun _ _ => false) true true).producer
        = some .basic
    ∧ (renderEndpoint true false "" .auto ["Design"] (fun _ _ => false) true true).fallbackUsed
        = false := by
  refine ⟨?_, by decide, by decide, by decide⟩
  intro w h hw hh
  simp [generateBasicMockup, hw, hh]

/-- C4 (witness): the general canvas formula evaluated at the 200-by-200
design. -/
theorem C4_witness :
    generateBasicMockup ⟨200, 200⟩ =
      some ⟨3 * max 200 800 / 2, 3 * max 200 800 / 2,
            (3 * max 200 800 / 2 - 200) / 2, (3 * max 200 800 / 2 - 200) / 2⟩ :=
  C4_basic_canvas_geometry.1 200 200 (by decide) (by decide)

/-- C5 (counterexample): a readable, decodable 801-by-801 design makes the
basic fallback compositor fail: the canvas dimension `801 * 1.5 = 1201.5`
is not an integer, which the raster library's `create` rejects — a
structural failure with no input-file I/O error involved. -/
theorem C5_counterexample :
    generateBasicMockup ⟨801, 801⟩ = none
    ∧ generateBasicMockup ⟨800, 800⟩ ≠ none := by
  decide

/-- C5 (amended): for a readable design the basic fallback compositor
succeeds exactly when both clamped dimensions `max(dim, 800)` are even
(equivalently, `1.5 * max(dim, 800)` is an integer on both axes); it fails
for every decodable design with an odd dimension greater than 800. -/
theorem C5_basic_success_condition (w h : Nat) :
    (generateBasicMockup ⟨w, h⟩).isSome
      ↔ (max w 800 % 2 = 0 ∧ max h 800 % 2 = 0) := by
  simp only [generateBasicMockup]
  split <;> simp_all

/-- C6: with any per-attempt outcomes whatsoever (failures of either
strategy on any candidate, timeouts included — all are just errors of the
racing await), a request whose design fetch and final basic mockup succeed
always answers `success:true`: per-attempt errors never propagate to the
caller, the loop merely advances.  Conversely (for a configured non-empty
candidate list) a `success:false` answer implies the design fetch failed or
the basic compositor failed. -/
theorem C6_per_attempt_errors_contained (te : Bool) (tp : String) (mode : Mode)
    (cands : List String) (strategyOk : Strategy → String → Bool)
    (pngOk : Bool) (hc : cands ≠ []) :
    ((renderEndpoint true te tp mode cands strategyOk pngOk true).success = true)
    ∧ (∀ fetchOk basicOk : Bool,
        (renderEndpoint fetchOk te tp mode cands strategyOk pngOk basicOk).success = false →
        fetchOk = false ∨ basicOk = false) := by
  obtain ⟨c, cs, rfl⟩ := List.exists_cons_of_ne_nil hc
  constructor
  · rcases hrr : runCandidates
        (fun x => generateMockup te tp mode x strategyOk pngOk true) (c :: cs)
      with ⟨atts, _ | p⟩ <;> simp [renderEndpoint, hrr]
  · intro fetchOk basicOk
    cases fetchOk
    · exact fun _ => Or.inl rfl
    · cases basicOk
      · exact fun _ => Or.inr rfl
      · rcases hrr : runCandidates
            (fun x => generateMockup te tp mode x strategyOk pngOk true) (c :: cs)
          with ⟨atts, _ | p⟩ <;> simp [renderEndpoint, hrr]

/-- C6 (witness): both strategies failing on the single candidate still
yields `success:true`, and the reverse implication evaluated at a failed
fetch. -/
theorem C6_witness :
    (renderEndpoint true true "t.psd" .auto ["A"] (fun _ _ => false) true true).success = true
    ∧ (false = false ∨ true = false) := by
  have h := C6_per_attempt_errors_contained true "t.psd" .auto ["A"]
    (fun _ _ => false) true (by decide)
  exact ⟨h.1, h.2 false true (by decide)⟩

/-- C7: on every run of the remote-editor compositor the browser session is
closed exactly when one was launched — the `finally` block releases it on
the success path and on every throwing path alike — and whenever a session
was launched the close is the final session event before the compositor
returns or rethrows. -/
theorem C7_browser_always_released (w : PhotopeaWorld) :
    (generateMockupWithPhotopea w).browserClosed
        = (generateMockupWithPhotopea w).browserLaunched
    ∧ ((generateMockupWithPhotopea w).browserLaunched = true →
        (photopeaTrace w).getLast? = some .close) := by
  cases hl : w.launchOk <;>
    cases hb : photopeaBody w <;>
      simp [generateMockupWithPhotopea, photopeaTrace, hl, hb]

/-- C7 (witness): a run whose navigation fails still ends with the session
close event. -/
theorem C7_witness :
    (photopeaTrace ⟨true, false, true, true, true, true, true⟩).getLast? = some .close :=
  (C7_browser_always_released ⟨true, false, true, true, true, true, true⟩).2 (by decide)

/-- C8: the design-image fetcher makes exactly 3 attempts with a 1000 ms
delay between consecutive attempts when every attempt fails, reporting
failure afterwards; it never makes more than 3 attempts; and a design fetch
failure is fatal to the request — the endpoint answers `success:false` and
produces no mockup, whatever the template situation. -/
theorem C8_download_retry (ok : Nat → Bool) (h : ∀ k, ok k = false) :
    downloadDesignImage ok = ⟨3, [1000, 1000], false⟩
    ∧ (∀ ok2 : Nat → Bool, (downloadDesignImage ok2).attemptsMade ≤ 3)
    ∧ (∀ (te : Bool) (tp : String) (mode : Mode) (cands : List String)
        (st : Strategy → String → Bool) (pngOk basicOk : Bool),
        (renderEndpoint false te tp mode cands st pngOk basicOk).success = false
        ∧ (renderEndpoint false te tp mode cands st pngOk basicOk).producer = none) := by
  refine ⟨?_, ?_, ?_⟩
  · simp [downloadDesignImage, downloadGo, h]
  · intro ok2
    cases h1 : ok2 1 <;> cases h2 : ok2 2 <;> cases h3 : ok2 3 <;>
      simp [downloadDesignImage, downloadGo, h1, h2, h3]
  · intro te tp mode cands st pngOk basicOk
    simp [renderEndpoint]

/-- C8 (witness): the retry trace with every attempt failing. -/
theorem C8_witness :
    downloadDesignImage (fun _ => false) = ⟨3, [1000, 1000], false⟩ :=
  (C8_download_retry (fun _ => false) (fun _ => rfl)).1

/-- C9: whenever the layer locator resolves the insertion layer, the PSD.js
compositor resizes the design to exactly the layer's bounding-box width and
height (stretch-fit, ignoring the design's own aspect ratio) and composites
it onto the exported template raster at the box's top-left offset. -/
theorem C9_psdjs_stretch_fit (tree : Layer) (design : Img) (name : String)
    (l : Layer) (h : findDesignLayer tree name = some l) :
    generateMockupWithPsdJs tree design name =
      some { base := tree,
             overlay := ⟨l.rect.width, l.rect.height, design.tag⟩,
             left := l.rect.left, top := l.rect.top } := by
  simp [generateMockupWithPsdJs, h, resizeFill]

/-- C10: when the template file exists but its extension (lower-cased) is
none of `.psd`, `.png`, `.jpg`, `.jpeg`, the classifier reports `unknown`
and the request does not fail: the endpoint behaves exactly as if no
template existed, returning the basic fallback output with no compositor
attempts. -/
theorem C10_unknown_template_type (p : String) (mode : Mode) (cands : List String)
    (strategyOk : Strategy → String → Bool) (pngOk : Bool)
    (hp : p ≠ "")
    (hext : strToLower (extnameStr p) ∉ ([".psd", ".png", ".jpg", ".jpeg"] : List String))
    (hc : cands ≠ []) :
    getTemplateType p = "unknown"
    ∧ renderEndpoint true true p mode cands strategyOk pngOk true
        = renderEndpoint true false p mode cands strategyOk pngOk true
    ∧ (renderEndpoint true true p mode cands strategyOk pngOk true).success = true
    ∧ (renderEndpoint true true p mode cands strategyOk pngOk true).producer = some .basic
    ∧ (renderEndpoint true true p mode cands strategyOk pngOk true).attempts = [] := by
  have h1 : strToLower (extnameStr p) ≠ ".psd" := fun h => hext (by simp [h])
  have h2 : strToLower (extnameStr p) ≠ ".png" := fun h => hext (by simp [h])
  have h3 : strToLower (extnameStr p) ≠ ".jpg" := fun h => hext (by simp [h])
  have h4 : strToLower (extnameStr p) ≠ ".jpeg" := fun h => hext (by simp [h])
  have ht : getTemplateType p = "unknown" := by
    simp [getTemplateType, hp, h1, h2, h3, h4]
  have hgenT : ∀ x, generateMockup true p mode x strategyOk pngOk true = ⟨[], some .basic⟩ := by
    intro x; simp [generateMockup, hp, ht]
  have hgenF : ∀ x, generateMockup false p mode x strategyOk pngOk true = ⟨[], some .basic⟩ := by
    intro x; simp [generateMockup]
  obtain ⟨c, cs, rfl⟩ := List.exists_cons_of_ne_nil hc
  have hrrT : runCandidates (fun x => generateMockup true p mode x strategyOk pngOk true) (c :: cs)
      = ([], some .basic) := by
    have h := runCandidates_first_succeeds
      (fun x => generateMockup true p mode x strategyOk pngOk true) c cs .basic
      (by simp [hgenT])
    simpa [hgenT] using h
  have hrrF : runCandidates (fun x => generateMockup false p mode x strategyOk pngOk true) (c :: cs)
      = ([], some .basic) := by
    have h := runCandidates_first_succeeds
      (fun x => generateMockup false p mode x strategyOk pngOk true) c cs .basic
      (by simp [hgenF])
    simpa [hgenF] using h
  refine ⟨ht, ?_, ?_, ?_, ?_⟩ <;> simp [renderEndpoint, hrrT, hrrF]

/-- C10 (witness): a `.gif` template behaves exactly like a missing
template. -/
theorem C10_witness :
    getTemplateType "t.gif" = "unknown"
    ∧ renderEndpoint true true "t.gif" .auto ["Design"] (fun _ _ => false) true true
        = renderEndpoint true false "t.gif" .auto ["Design"] (fun _ _ => false) true true
    ∧ (renderEndpoint true true "t.gif" .auto ["Design"] (fun _ _ => false) true true).success
        = true
    ∧ (renderEndpoint true true "t.gif" .auto ["Design"] (fun _ _ => false) true true).producer
        = some .basic
    ∧ (renderEndpoint true true "t.gif" .auto ["Design"] (fun _ _ => false) true true).attempts
        = [] :=
  C10_unknown_template_type "t.gif" .auto ["Design"] (fun _ _ => false) true
    (by decide) (by decide) (by decide)

/-- C9 (witness): a 100-by-100 design is stretched into the 50-by-50 box at
offset (10, 20) of a concrete template tree. -/
theorem C9_witness :
    generateMockupWithPsdJs
      (Layer.mk "root" ⟨0, 0, 0, 0⟩ [Layer.mk "Design" ⟨10, 20, 50, 50⟩ []])
      ⟨100, 100, "d"⟩ "Design"
    = some { base := Layer.mk "root" ⟨0, 0, 0, 0⟩ [Layer.mk "Design" ⟨10, 20, 50, 50⟩ []],
             overlay := ⟨50, 50, "d"⟩, left := 10, top := 20 } := by
  have h : findDesignLayer
      (Layer.mk "root" ⟨0, 0, 0, 0⟩ [Layer.mk "Design" ⟨10, 20, 50, 50⟩ []]) "Design"
      = some (Layer.mk "Design" ⟨10, 20, 50, 50⟩ []) := by
    simp +decide [findDesignLayer, findDesignLayerForest]
  simpa using C9_psdjs_stretch_fit _ ⟨100, 100, "d"⟩ _ _ h

/-- C3 (counterexample): tier ordering is not global. In the forest
`[group G containing a layer named xdesignx, layer named Design]` with
candidate `Design`, the remote locator returns the nested substring match
`xdesignx` even though a layer named exactly `Design` exists: the exact
pass recurses into the group with the full three-pass search, so substring
matches inside an earlier group beat exact matches on later siblings. -/
theorem C3_counterexample :
    findLayerByName
        [Layer.mk "G" ⟨0, 0, 0, 0⟩ [Layer.mk "xdesignx" ⟨0, 0, 0, 0⟩ []],
         Layer.mk "Design" ⟨0, 0, 0, 0⟩ []] "Design"
      = some (Layer.mk "xdesignx" ⟨0, 0, 0, 0⟩ [])
    ∧ Layer.mk "Design" ⟨0, 0, 0, 0⟩ []
        ∈ allNodes
          [Layer.mk "G" ⟨0, 0, 0, 0⟩ [Layer.mk "xdesignx" ⟨0, 0, 0, 0⟩ []],
           Layer.mk "Design" ⟨0, 0, 0, 0⟩ []]
    ∧ (Layer.mk "xdesignx" ⟨0, 0, 0, 0⟩ []).name ≠ "Design" := by
  refine ⟨?_, ?_, ?_⟩
  · simp +decide [findLayerByName, fLoop1, fLoop2, fLoop3]
  · simp [allNodes]
  · simp

/-- C3 (amended): on flat forests (no layer groups) the three tiers do
apply globally in order — exact case-sensitive equality, then
case-insensitive equality, then case-insensitive substring containment —
with the first match in list order winning within a tier and `none` when no
tier matches; in particular a layer named exactly like the candidate is
then returned in preference to any case-insensitive or substring match.
With nested groups the tiers only order the search within each sibling
list, because recursion into a group applies all three tiers inside the
subtree before later siblings are examined. -/
theorem C3_tier_order_flat (ls : List Layer) (name : String)
    (hflat : ∀ l ∈ ls, l.children = []) :
    (findLayerByName ls name =
      (match ls.find? (fun l => l.name == name) with
       | some x => some x
       | none =>
         match ls.find? (fun l => strToLower l.name == strToLower name) with
         | some x => some x
         | none => ls.find? (fun l => strIncludes (strToLower l.name) (strToLower name))))
    ∧ ((∃ l ∈ ls, l.name = name) →
        ∃ x, findLayerByName ls name = some x ∧ x.name = name) := by
  have h1 := fLoop1_flat name ls hflat
  have h2 := fLoop2_flat name ls hflat
  have h3 := fLoop3_flat name ls hflat
  constructor
  · rw [findLayerByName, h1, h2, h3]
  · rintro ⟨l, hl, hname⟩
    have hsome : (ls.find? (fun l => l.name == name)).isSome := by
      rw [List.find?_isSome]
      exact ⟨l, hl, by simp [hname]⟩
    obtain ⟨x, hx⟩ := Option.isSome_iff_exists.mp hsome
    refine ⟨x, ?_, ?_⟩
    · rw [findLayerByName, h1, hx]
    · simpa using List.find?_some hx

/-- C3 (witness): in a flat forest holding `Logo`, `design` and `Design`,
the candidate `Design` resolves to a layer named exactly `Design`. -/
theorem C3_witness :
    ∃ x, findLayerByName
        [Layer.mk "Logo" ⟨0, 0, 0, 0⟩ [], Layer.mk "design" ⟨0, 0, 0, 0⟩ [],
         Layer.mk "Design" ⟨0, 0, 0, 0⟩ []] "Design" = some x
      ∧ x.name = "Design" :=
  (C3_tier_order_flat _ "Design" (by simp)).2
    ⟨Layer.mk "Design" ⟨0, 0, 0, 0⟩ [], by simp, rfl⟩

/-- Strong induction on the forest size: when every lower-cased layer name
containing the lower-cased candidate is in fact exactly the candidate, the
three remote passes collapse onto the exact pre-order search: the exact
pass equals the in-process forest search, the later passes find nothing
the forest search missed, and the combined remote locator agrees with the
in-process locator. -/
theorem C2_aux (name : String) :
    ∀ n : Nat, ∀ ls : List Layer, sizeOf ls ≤ n →
      (∀ l ∈ allNodes ls,
        strIncludes (strToLower l.name) (strToLower name) = true → l.name = name) →
      (fLoop1 ls name = findDesignLayerForest ls name
       ∧ (findDesignLayerForest ls name = none → fLoop2 ls name = none)
       ∧ (findDesignLayerForest ls name = none → fLoop3 ls name = none)
       ∧ findLayerByName ls name = findDesignLayerForest ls name) := by
  intro n
  induction n with
  | zero =>
    intro ls hsz _
    have := sizeOf_layerList_pos ls
    omega
  | succ n ih =>
    intro ls hsz hyp
    rcases ls with _ | ⟨⟨m, r, cs⟩, rest⟩
    · refine ⟨?_, fun _ => ?_, fun _ => ?_, ?_⟩ <;>
        simp [fLoop1, fLoop2, fLoop3, findLayerByName, findDesignLayerForest]
    · have hszcs : sizeOf cs ≤ n := by
        simp only [List.cons.sizeOf_spec, Layer.mk.sizeOf_spec] at hsz
        omega
      have hszr : sizeOf rest ≤ n := by
        simp only [List.cons.sizeOf_spec, Layer.mk.sizeOf_spec] at hsz
        omega
      have hyp_head : strIncludes (strToLower m) (strToLower name) = true → m = name := by
        have h := hyp (Layer.mk m r cs) (by simp [allNodes])
        simpa using h
      have hyp_cs : ∀ l ∈ allNodes cs,
          strIncludes (strToLower l.name) (strToLower name) = true → l.name = name := by
        intro l hl
        exact hyp l (by simp [allNodes, hl])
      have hyp_rest : ∀ l ∈ allNodes rest,
          strIncludes (strToLower l.name) (strToLower name) = true → l.name = name := by
        intro l hl
        exact hyp l (by simp [allNodes, hl])
      obtain ⟨ih1cs, ih2cs, ih3cs, ih4cs⟩ := ih cs hszcs hyp_cs
      obtain ⟨ih1r, ih2r, ih3r, ih4r⟩ := ih rest hszr hyp_rest
      have hguard : (if cs.isEmpty then none else findLayerByName cs name)
          = findDesignLayerForest cs name := by
        by_cases hcse : cs.isEmpty
        · have hnil : cs = [] := by simpa using hcse
          subst hnil
          simp [findDesignLayerForest]
        · simp [hcse, ih4cs]
      have g1 : fLoop1 (Layer.mk m r cs :: rest) name
          = findDesignLayerForest (Layer.mk m r cs :: rest) name := by
        by_cases hm : m = name
        · simp [fLoop1, findDesignLayerForest, findDesignLayer, hm]
        · cases hfc : findDesignLayerForest cs name with
          | some f =>
            simp [fLoop1, findDesignLayerForest, findDesignLayer, hm, hguard, hfc]
          | none =>
            simp [fLoop1, findDesignLayerForest, findDesignLayer, hm, hguard, hfc, ih1r]
      have hsplit : findDesignLayerForest (Layer.mk m r cs :: rest) name = none →
          ¬ m = name ∧ findDesignLayerForest cs name = none
            ∧ findDesignLayerForest rest name = none := by
        intro hforest
        rw [findDesignLayerForest] at hforest
        cases hhd : findDesignLayer (Layer.mk m r cs) name with
        | some f => rw [hhd] at hforest; simp at hforest
        | none =>
          rw [hhd] at hforest
          rw [findDesignLayer] at hhd
          by_cases hm : m = name
          · rw [if_pos hm] at hhd; simp at hhd
          · rw [if_neg hm] at hhd
            exact ⟨hm, hhd, hforest⟩
      have g2 : findDesignLayerForest (Layer.mk m r cs :: rest) name = none →
          fLoop2 (Layer.mk m r cs :: rest) name = none := by
        intro hforest
        obtain ⟨hm, hfc, hfr⟩ := hsplit hforest
        have hci : ¬ (strToLower m = strToLower name) := by
          intro he
          refine hm (hyp_head ?_)
          rw [strIncludes, he]
          exact containsB_self _
        simp [fLoop2, hci, hguard, hfc, ih2r hfr]
      have g3 : findDesignLayerForest (Layer.mk m r cs :: rest) name = none →
          fLoop3 (Layer.mk m r cs :: rest) name = none := by
        intro hforest
        obtain ⟨hm, hfc, hfr⟩ := hsplit hforest
        have hsub : ¬ (strIncludes (strToLower m) (strToLower name) = true) :=
          fun h => hm (hyp_head h)
        rw [Bool.not_eq_true] at hsub
        simp [fLoop3, hsub, hguard, hfc, ih3r hfr]
      refine ⟨g1, g2, g3, ?_⟩
      rw [findLayerByName, g1]
      cases hf : findDesignLayerForest (Layer.mk m r cs :: rest) name with
      | some x => simp
      | none => simp [g2 hf, g3 hf]

/-- C2 (amended): the in-process locator performs only the exact
case-sensitive pre-order search, while the remote locator adds the
case-insensitive and substring tiers, so the two agree exactly on forests
where loose matching brings nothing new: whenever every layer whose
lower-cased name contains the lower-cased candidate is named exactly the
candidate, both locators return the same node (and in general they differ,
see the counterexample). -/
theorem C2_locator_agreement (name : String) (ls : List Layer)
    (h : ∀ l ∈ allNodes ls,
      strIncludes (strToLower l.name) (strToLower name) = true → l.name = name) :
    findLayerByName ls name = findDesignLayerForest ls name :=
  (C2_aux name (sizeOf ls) ls le_rfl h).2.2.2

/-- C2 (counterexample): the two locators disagree on the one-layer forest
`[design]` with candidate `Design`: the in-process exact-only search finds
nothing while the remote tiered search returns the layer case-insensitively,
so the chosen layer depends on which compositor is active. -/
theorem C2_counterexample :
    findDesignLayerForest [Layer.mk "design" ⟨0, 0, 0, 0⟩ []] "Design" = none
    ∧ findLayerByName [Layer.mk "design" ⟨0, 0, 0, 0⟩ []] "Design"
        = some (Layer.mk "design" ⟨0, 0, 0, 0⟩ []) := by
  constructor
  · simp [findDesignLayerForest, findDesignLayer]
  · simp +decide [findLayerByName, fLoop1, fLoop2]

/-- C2 (witness): on a forest whose names loosely match the candidate only
when exactly equal (`Design` and `Logo`), the two locators agree. -/
theorem C2_witness :
    findLayerByName [Layer.mk "Design" ⟨0, 0, 0, 0⟩ [], Layer.mk "Logo" ⟨0, 0, 0, 0⟩ []]
        "Design"
      = findDesignLayerForest
          [Layer.mk "Design" ⟨0, 0, 0, 0⟩ [], Layer.mk "Logo" ⟨0, 0, 0, 0⟩ []] "Design" :=
  C2_locator_agreement "Design"
    [Layer.mk "Design" ⟨0, 0, 0, 0⟩ [], Layer.mk "Logo" ⟨0, 0, 0, 0⟩ []]
    (by
      intro l hl
      simp [allNodes] at hl
      rcases hl with rfl | rfl
      · intro _; rfl
      · intro hcon; exact absurd hcon (by decide))
